import Mathlib

/-!
Verification of the ACS firmware core (distributed access-control network)
against its natural-language specification.

Shallow embedding conventions:
* Python `bytes` values are modelled as `List Nat` (each entry a byte value).
* Python `str` values are modelled as `List Char`.
* Fallible Python functions that return `None` on error are modelled as
  `Option`-valued Lean functions; a Python call that raises an exception that
  escapes the enclosing function is modelled with `Except`.
* The sources embedded here are
  `src/firmware/esp32/protocol.py` (text frame codec),
  `src/firmware/esp32/pro_wiegand_lib.py` (credential decoder),
  `src/firmware/esp32/main.py` (node: queue, callbacks, I2C handlers) and
  `src/firmware/esp32_master/main.py` (master: binary parser, polling engine).
-/

namespace ACS

/-! ## Protocol constants (esp32/main.py, esp32_master/main.py) -/

def UNCONFIGURED_I2C_ADDRESS : Nat := 0x08
def CMD_IDENTIFY : Nat := 0x01
def CMD_SET_ADDRESS : Nat := 0x02
def CMD_FEEDBACK_GRANT : Nat := 0x10
def CMD_FEEDBACK_DENY : Nat := 0x11
def RESP_IDENTIFY : Nat := 0x41
def ACK_SET_ADDRESS : Nat := 0x42
def EVENT_CARD_READ : Nat := 0x81
def EVENT_HEARTBEAT : Nat := 0x82
def EVENT_REX : Nat := 0x83
def EVENT_DOOR_CONTACT : Nat := 0x84
def STATUS_OK : Nat := 0x01

/-- `calculate_checksum(data)` from `esp32/main.py` and `esp32_master/main.py`:
XOR of all bytes of `data`. -/
def calculate_checksum (data : List Nat) : Nat :=
  data.foldl (fun checksum byte => checksum ^^^ byte) 0

/-! ## Master-side binary parser (`esp32_master/main.py`, `parse_slave_response`) -/

/-- The dictionaries `parse_slave_response` can return, as a tagged union.
`state` of a door contact is the Python string `"open"` or `"closed"`,
modelled as a `Bool` (`true` = `"open"`). -/
inductive SlaveMsg where
  | empty : SlaveMsg
  | card_read (addr rdr_id bits card : Nat) : SlaveMsg
  | heartbeat (addr : Nat) : SlaveMsg
  | identity (uid : List Nat) : SlaveMsg
  | event_rex (addr rdr_id : Nat) : SlaveMsg
  | event_door_contact (addr rdr_id : Nat) (is_open : Bool) : SlaveMsg
deriving DecidableEq, Repr

/-- `parse_slave_response(data, slave_address)` from `esp32_master/main.py`.

Faithful notes:
* `data == b'\x00'` returns the special `{"type": "empty"}` dict before any
  other check.
* `len(data) < 3` and checksum/length mismatches return `None`.
* The `EVENT_CARD_READ` branch calls `struct.unpack('>BB_I', payload[2:])`.
  `'_'` is not a struct format character, so the call raises
  (`struct.error` in CPython, `ValueError("bad typecode")` in MicroPython);
  the surrounding `except Exception` catches it and the function returns
  `None`.  The branch therefore always yields `None`.
* The `EVENT_REX` branch indexes `payload[2]`; with an empty field part the
  `IndexError` is caught and `None` is returned.
* The `EVENT_DOOR_CONTACT` branch calls `struct.unpack('>BB', payload[2:])`,
  which raises unless the field part is exactly two bytes; the exception is
  caught and `None` is returned.
* Unknown message types fall through to `return None`. -/
def parse_slave_response (data : List Nat) (slave_address : Nat) : Option SlaveMsg :=
  if data = [0x00] then some .empty
  else if data.length < 3 then none
  else
    let payload := data.dropLast
    let received_checksum := data.getLastD 0
    let expected_checksum := calculate_checksum payload
    if received_checksum ≠ expected_checksum then none
    else
      match payload with
      | msg_type :: msg_len :: fields =>
        if fields.length ≠ msg_len then none
        else if msg_type = EVENT_CARD_READ then
          none
        else if msg_type = EVENT_HEARTBEAT then some (.heartbeat slave_address)
        else if msg_type = RESP_IDENTIFY then some (.identity fields)
        else if msg_type = EVENT_REX then
          match fields with
          | rdr_id :: _ => some (.event_rex slave_address rdr_id)
          | [] => none
        else if msg_type = EVENT_DOOR_CONTACT then
          match fields with
          | [rdr_id, state] => some (.event_door_contact slave_address rdr_id (state = 1))
          | _ => none
        else none
      | _ => none

/-! ## Node-side queue and producers (`esp32/main.py`) -/

/-- `prepare_message(payload)` from `esp32/main.py`, with the global `tx_queue`
made explicit.  Returns the new queue and whether the overflow warning was
printed.  The queue is left untouched and the frame dropped when
`len(tx_queue) > 20`; otherwise the payload plus its XOR checksum byte is
appended. -/
def prepare_message (tx_queue : List (List Nat)) (payload : List Nat) :
    List (List Nat) × Bool :=
  if tx_queue.length > 20 then (tx_queue, true)
  else (tx_queue ++ [payload ++ [calculate_checksum payload]], false)

/-- `struct.pack('>BBBB_I', ...)` as called by `wiegand_callback` in
`esp32/main.py`: `'_'` is not a struct format character, so the call raises
(`struct.error` in CPython, `ValueError("bad typecode")` in MicroPython)
before producing any bytes. -/
def struct_pack_card_read (_msg_type _msg_len _rdr_id _bits _card_data : Nat) :
    Except String (List Nat) :=
  .error "bad char in struct format"

/-- `wiegand_callback(data_tuple)` from `esp32/main.py`, with the globals
`i2c_address` and `tx_queue` made explicit.  The tuple is
`(rdr_id, card_data, bits)`.  When the node still has the unconfigured
address it returns at once with the queue unchanged; otherwise the
`struct.pack` call raises and the exception escapes the callback (no frame
is enqueued). -/
def wiegand_callback (i2c_address : Nat) (tx_queue : List (List Nat))
    (data_tuple : Nat × Nat × Nat) : Except String (List (List Nat)) :=
  if i2c_address = UNCONFIGURED_I2C_ADDRESS then .ok tx_queue
  else
    match struct_pack_card_read EVENT_CARD_READ 6 data_tuple.1 data_tuple.2.2 data_tuple.2.1 with
    | .error e => .error e
    | .ok payload => .ok (prepare_message tx_queue payload).1

/-- The I2C slave interrupt causes reported by `i2c_instance.irq_info()` in
`esp32/main.py`. -/
inductive I2CIrqInfo where
  | rx_done : I2CIrqInfo
  | tx_done : I2CIrqInfo
deriving DecidableEq, Repr

/-- `i2c_irq_handler(i2c_instance)` from `esp32/main.py`, with the received
bytes, the outbound `tx_queue` and the bus effects made explicit.  Returns
`(scheduled, written, queue')` where `scheduled` is the byte string handed to
`handle_i2c_command` via `micropython.schedule` (if any), `written` the bytes
written back on the bus, and `queue'` the updated queue.

On `IRQ_RX_DONE` the raw received bytes are scheduled for dispatch with no
validation of any kind.  On `IRQ_TX_DONE` the front frame of `tx_queue` is
popped and written, or the single filler byte `0x00` when the queue is
empty. -/
def i2c_irq_handler (info : I2CIrqInfo) (rx_data : List Nat)
    (tx_queue : List (List Nat)) :
    Option (List Nat) × List Nat × List (List Nat) :=
  match info with
  | .rx_done => (some rx_data, [], tx_queue)
  | .tx_done =>
    match tx_queue with
    | [] => (none, [0x00], [])
    | message_to_send :: rest => (none, message_to_send, rest)

/-- The actions `handle_i2c_command` in `esp32/main.py` can take besides
enqueuing a reply frame. -/
inductive NodeCmdAction where
  | ignored_empty : NodeCmdAction
  | identify_reply : NodeCmdAction
  | set_address (new_addr : Nat) : NodeCmdAction
  | feedback (grant : Bool) (rdr_id : Nat) : NodeCmdAction
  | unknown_command : NodeCmdAction
deriving DecidableEq, Repr

/-- `handle_i2c_command(data)` from `esp32/main.py`, with the globals
`UNIQUE_ID` (as bytes) and `tx_queue` made explicit.  Returns the action
taken and the updated queue.  `CMD_IDENTIFY` enqueues
`[RESP_IDENTIFY, len(uid)] ++ uid` (plus checksum, via `prepare_message`);
`CMD_SET_ADDRESS` with an argument byte persists the address and enqueues
`struct.pack('>BBBB', ACK_SET_ADDRESS, 2, STATUS_OK, new_addr)` (plus
checksum); feedback commands with an argument byte start the feedback task;
anything else is reported as unknown, enqueuing nothing. -/
def handle_i2c_command (uid : List Nat) (tx_queue : List (List Nat))
    (data : List Nat) : NodeCmdAction × List (List Nat) :=
  match data with
  | [] => (.ignored_empty, tx_queue)
  | cmd :: rest =>
    if cmd = CMD_IDENTIFY then
      (.identify_reply,
        (prepare_message tx_queue (RESP_IDENTIFY :: uid.length :: uid)).1)
    else if cmd = CMD_SET_ADDRESS ∧ rest ≠ [] then
      let new_addr := rest.headD 0
      (.set_address new_addr,
        (prepare_message tx_queue [ACK_SET_ADDRESS, 2, STATUS_OK, new_addr]).1)
    else if (cmd = CMD_FEEDBACK_GRANT ∨ cmd = CMD_FEEDBACK_DENY) ∧ rest ≠ [] then
      (.feedback (cmd = CMD_FEEDBACK_GRANT) (rest.headD 0), tx_queue)
    else (.unknown_command, tx_queue)

/-! ## Credential decoder (`esp32/pro_wiegand_lib.py`, class `_WiegandReader`) -/

/-- Auxiliary structural recursion for `popCount` (the first argument is
fuel, always at least the number being counted). -/
def popCountAux : Nat → Nat → Nat
  | 0, _ => 0
  | fuel + 1, n => if n = 0 then 0 else n % 2 + popCountAux fuel (n / 2)

/-- `bin(n).count('1')`: the number of set bits of `n`. -/
def popCount (n : Nat) : Nat := popCountAux n n

/-- The per-reader decoder state `self._data, self._bits` of `_WiegandReader`. -/
structure DecoderState where
  data : Nat
  bits : Nat
deriving DecidableEq, Repr

def MIN_PULSE_WIDTH_US : Nat := 200
def TIMEOUT_MS : Nat := 50

/-- `_WiegandReader._check_parity(self)`: for any bit count other than 26 the
check is skipped (returns `True`); for exactly 26 bits the top 13 bits must
contain an even number of ones and the bottom 13 bits an odd number. -/
def check_parity (st : DecoderState) : Bool :=
  if st.bits ≠ 26 then true
  else
    let first_13_bits := (st.data >>> 13) &&& 0x1FFF
    if popCount first_13_bits % 2 ≠ 0 then false
    else
      let last_13_bits := st.data &&& 0x1FFF
      if popCount last_13_bits % 2 ≠ 1 then false
      else true

/-- `_WiegandReader._finalize_read(self, timer_instance)`: fires on idle-timer
expiry.  With `bits > 0` and valid parity it schedules the callback with the
tuple `(reader_id, data, bits)` (modelled as the emitted event); on parity
failure, or with no accumulated bits, nothing is emitted.  Either way the
state is reset to `(0, 0)`. -/
def finalize_read (reader_id : Nat) (st : DecoderState) :
    Option (Nat × Nat × Nat) × DecoderState :=
  if st.bits > 0 then
    if check_parity st then (some (reader_id, st.data, st.bits), ⟨0, 0⟩)
    else (none, ⟨0, 0⟩)
  else (none, ⟨0, 0⟩)

/-- One door's input pin readings during one pass of the `monitor_inputs`
loop in `esp32/main.py`: the door id and the current values of the REX
button pin and the door contact pin. -/
structure DoorPins where
  id : Nat
  rex : Nat
  contact : Nat
deriving DecidableEq, Repr

/-- The global `last_input_states` dictionary of `esp32/main.py`, split into
its `(rdr_id, 'rex')` keys (default 1) and `(rdr_id, 'contact')` keys
(default -1), modelled as association lists where the most recent binding
wins. -/
structure InputStates where
  rex : List (Nat × Nat)
  contact : List (Nat × Int)
deriving DecidableEq, Repr

/-- `dict.get(k, dflt)` on an association list. -/
def lookupA {α : Type} (l : List (Nat × α)) (k : Nat) (dflt : α) : α :=
  (l.find? (fun p => p.1 == k)).elim dflt Prod.snd

/-- The per-door body of the `monitor_inputs` loop in `esp32/main.py`: a REX
payload `[EVENT_REX, 1, rdr_id]` is enqueued on the falling edge of the REX
pin (value 0 while the remembered value is 1), a door-contact payload
`[EVENT_DOOR_CONTACT, 2, rdr_id, state]` whenever the contact value differs
from the remembered value; the remembered values are then refreshed. -/
def monitor_door (acc : List (List Nat) × InputStates) (d : DoorPins) :
    List (List Nat) × InputStates :=
  let q := acc.1
  let s := acc.2
  let q1 := if d.rex = 0 ∧ lookupA s.rex d.id 1 = 1 then
      (prepare_message q [EVENT_REX, 1, d.id]).1
    else q
  let s1 : InputStates := { s with rex := (d.id, d.rex) :: s.rex }
  let state := if d.contact = 1 then 1 else 0
  let q2 := if (d.contact : Int) ≠ lookupA s1.contact d.id (-1) then
      (prepare_message q1 [EVENT_DOOR_CONTACT, 2, d.id, state]).1
    else q1
  let s2 : InputStates := { s1 with contact := (d.id, (d.contact : Int)) :: s1.contact }
  (q2, s2)

/-- One pass of the `while True` body of `monitor_inputs` in `esp32/main.py`:
the whole body is guarded by `i2c_address != UNCONFIGURED_I2C_ADDRESS`, and
under the guard every configured door is processed in order. -/
def monitor_inputs_iter (i2c_address : Nat) (doors : List DoorPins)
    (states : InputStates) (tx_queue : List (List Nat)) :
    List (List Nat) × InputStates :=
  if i2c_address ≠ UNCONFIGURED_I2C_ADDRESS then
    doors.foldl monitor_door (tx_queue, states)
  else (tx_queue, states)

/-- One pass of the `while True` body of `heartbeat` in `esp32/main.py`:
after the 30 s sleep, a heartbeat payload `struct.pack('>BB', EVENT_HEARTBEAT, 0)`
is enqueued unless the node still has the unconfigured address. -/
def heartbeat_iter (i2c_address : Nat) (tx_queue : List (List Nat)) :
    List (List Nat) :=
  if i2c_address ≠ UNCONFIGURED_I2C_ADDRESS then
    (prepare_message tx_queue [EVENT_HEARTBEAT, 0]).1
  else tx_queue

/-! ## Master polling engine (`esp32_master/main.py`, `polling_task`) -/

/-- The `status` field of a `known_slaves` entry: one of the strings
`"unknown"`, `"online"`, `"offline"`. -/
inductive NodeStatus where
  | unknown : NodeStatus
  | online : NodeStatus
  | offline : NodeStatus
deriving DecidableEq, Repr

/-- The mutable per-node state `{"last_seen": ..., "status": ...}` of a
`known_slaves` entry (the immutable `config` field is omitted).
Timestamps are `utime.ticks_ms()` values, modelled as integers with
`utime.ticks_diff(a, b)` modelled as `a - b`. -/
structure NodeState where
  status : NodeStatus
  last_seen : Int
deriving DecidableEq, Repr

/-- The outcome of the `i2c.readfrom(addr, 32)` transaction in one iteration
of the polling loop: either an `OSError` (no response / transport error) or
a byte string read from the node. -/
inductive PollOutcome where
  | oserror : PollOutcome
  | response (data : List Nat) : PollOutcome
deriving DecidableEq, Repr

/-- One node's poll handling from the body of `polling_task`
(`esp32_master/main.py`): returns the new node state, whether the
"now ONLINE" notice was printed, and whether the OFFLINE warning was
printed.

* `OSError`: if the status was not already `"offline"`, it is set to
  `"offline"` and the warning is printed; `last_seen` is untouched.
* A response that `parse_slave_response` rejects (`None`): treated as a sign
  of life — `last_seen := now`, status untouched.
* A parsed response (including the `{"type": "empty"}` one): status is set to
  `"online"` (with a notice if it was not online before) and
  `last_seen := now`. -/
def poll_node (st : NodeState) (outcome : PollOutcome) (now : Int) (addr : Nat) :
    NodeState × Bool × Bool :=
  match outcome with
  | .oserror =>
    if st.status ≠ .offline then ({ st with status := .offline }, false, true)
    else (st, false, false)
  | .response data =>
    match parse_slave_response data addr with
    | none => ({ st with last_seen := now }, false, false)
    | some _ =>
      ({ status := .online, last_seen := now }, decide (st.status ≠ .online), false)

/-- The timeout sweep at the end of each `polling_task` round
(`esp32_master/main.py` lines 201-205): a node whose status is `"online"`
and whose `last_seen` is more than 45000 ms old is marked `"offline"` and a
warning is printed.  Returns the new state and whether the warning was
printed. -/
def timeout_check (st : NodeState) (now : Int) : NodeState × Bool :=
  if st.status = .online ∧ now - st.last_seen > 45000 then
    ({ st with status := .offline }, true)
  else (st, false)

/-! ## Text frame codec (`esp32/protocol.py`) -/

/-- The ASCII whitespace characters removed by Python's `str.strip()`. -/
def isPySpace (c : Char) : Bool :=
  c = ' ' ∨ c = '\t' ∨ c = '\n' ∨ c = '\r' ∨ c.toNat = 11 ∨ c.toNat = 12

/-- `calculate_checksum(payload_str)` from `protocol.py`: XOR of the code
points of all characters of the string. -/
def str_checksum (payload_str : List Char) : Nat :=
  payload_str.foldl (fun checksum char => checksum ^^^ char.toNat) 0

/-- Python's `"{:02X}".format(n)`: uppercase hexadecimal digits, padded with
a leading zero to at least two digits. -/
def format02X (n : Nat) : List Char :=
  let ds := (Nat.toDigits 16 n).map Char.toUpper
  if ds.length = 1 then '0' :: ds else ds

/-- `clean_line.rsplit('|', 1)` for a string containing `'|'`: splits at the
last `'|'` into the part before it and the part after it. -/
def rsplit_bar (s : List Char) : List Char × List Char :=
  let r := s.reverse
  (((r.dropWhile (fun c => c != '|')).drop 1).reverse,
    (r.takeWhile (fun c => c != '|')).reverse)

/-- `raw_line_str.strip()` (both ends, ASCII whitespace). -/
def pyStrip (s : List Char) : List Char :=
  ((s.dropWhile isPySpace).reverse.dropWhile isPySpace).reverse

/-- `parse_message(raw_line_str)` from `protocol.py`, embedded up to and
including step 5 (strip, `'<'` / `'|'` / `'>'` envelope checks, checksum
verification with case-insensitive comparison): returns the JSON payload
string that step 6 hands to `ujson.loads`, or `none` on any rejection.
Step 6 itself (JSON decoding of the validated payload string; a
`ValueError` there is caught and yields `None`) is outside this framing
model: `parse_message` returns a dict only when this function returns the
payload string. -/
def parse_message_frame (raw_line_str : List Char) : Option (List Char) :=
  let clean_line := pyStrip raw_line_str
  if ¬ (clean_line.head? = some '<' ) ∨ ¬ clean_line.contains '|' then none
  else
    let payload_part := (rsplit_bar clean_line).1
    let received_checksum := (rsplit_bar clean_line).2
    if ¬ (payload_part.getLast? = some '>' ) then none
    else
      let payload_str := (payload_part.drop 1).dropLast
      let expected_checksum := format02X (str_checksum payload_str)
      if expected_checksum.map Char.toLower ≠ received_checksum.map Char.toLower
      then none
      else some payload_str

end ACS

/-! ## Claim theorems -/

/-- **C2.** The spec's end-to-end scenario says the binary CardRead frame
`81 06 02 1A 00 00 03 E8 74` (reader 2, 26 bits, code 1000, valid checksum
`0x74`) decodes to `CardRead{reader_id:2, bit_length:26, code:1000}`.  The
code instead returns `None`: the `struct.unpack('>BB_I', ...)` call in the
CardRead branch raises on the invalid format character `'_'` and the handler
returns `None`.  This theorem evaluates the embedded parser at that exact
frame: the checksum is valid (the frame passes every framing check and
reaches the CardRead branch), yet the result is `none`. -/
theorem C2_cardread_frame_decodes_to_none :
    ACS.calculate_checksum [0x81, 0x06, 0x02, 0x1A, 0x00, 0x00, 0x03, 0xE8] = 0x74 ∧
    ACS.parse_slave_response [0x81, 0x06, 0x02, 0x1A, 0x00, 0x00, 0x03, 0xE8, 0x74] 2 = none := by
  constructor
  · rfl
  · rfl

/-- **C1.** The round-trip law fails for the binary CardRead variant, on both
ends: the node's `wiegand_callback` calls `struct.pack('>BBBB_I', ...)`,
which raises on the invalid `'_'` format character, so no CardRead frame is
ever encoded (for a configured node, address 5, reading card 1000 with 26
bits on reader 2, the callback raises instead of enqueuing); and the
master's `parse_slave_response` returns `none` even on the well-formed
CardRead frame from the spec's scenario, because its
`struct.unpack('>BB_I', ...)` raises likewise. -/
theorem C1_binary_cardread_roundtrip_fails :
    ACS.wiegand_callback 5 [] (2, 1000, 26) = .error "bad char in struct format" ∧
    ACS.parse_slave_response [0x81, 0x06, 0x02, 0x1A, 0x00, 0x00, 0x03, 0xE8, 0x74] 2 = none := by
  constructor
  · rfl
  · rfl

/-- **C3.** When the idle timer fires with exactly 26 accumulated bits, an
event carrying the accumulated code is emitted iff the high 13 bits have an
even popcount and the low 13 bits an odd popcount; on parity failure nothing
is emitted; any other nonzero bit length skips parity validation and emits
exactly one event with the accumulated code. -/
theorem C3_finalize_parity (rid : Nat) (st : ACS.DecoderState) :
    (st.bits = 26 →
      ((ACS.finalize_read rid st).1 = some (rid, st.data, st.bits) ↔
        ACS.popCount ((st.data >>> 13) &&& 0x1FFF) % 2 = 0 ∧
          ACS.popCount (st.data &&& 0x1FFF) % 2 = 1)) ∧
    (st.bits = 26 →
      ¬ (ACS.popCount ((st.data >>> 13) &&& 0x1FFF) % 2 = 0 ∧
          ACS.popCount (st.data &&& 0x1FFF) % 2 = 1) →
      (ACS.finalize_read rid st).1 = none) ∧
    (st.bits ≠ 26 → st.bits ≠ 0 →
      (ACS.finalize_read rid st).1 = some (rid, st.data, st.bits)) := by
  obtain ⟨d, b⟩ := st
  refine ⟨?_, ?_, ?_⟩
  · rintro rfl
    simp only [ACS.finalize_read, ACS.check_parity]
    constructor
    · intro h
      by_contra hc
      push_neg at hc
      by_cases h1 : ACS.popCount ((d >>> 13) &&& 0x1FFF) % 2 = 0
      · have h2 := hc h1
        simp [h1, h2] at h
      · simp [h1] at h
    · rintro ⟨h1, h2⟩
      simp [h1, h2]
  · rintro rfl hc
    simp only [ACS.finalize_read, ACS.check_parity]
    by_cases h1 : ACS.popCount ((d >>> 13) &&& 0x1FFF) % 2 = 0
    · have h2 : ¬ ACS.popCount (d &&& 0x1FFF) % 2 = 1 := fun h2 => hc ⟨h1, h2⟩
      simp [h1, h2]
    · simp [h1]
  · intro hne hz
    simp [ACS.finalize_read, ACS.check_parity, hne, Nat.pos_of_ne_zero hz]

/-- Witness for C3: reader 7 with 26 accumulated bits and data 1 (valid
parity: high half even, low half odd) emits; data 5 with 26 bits (low half
has two set bits, even) emits nothing; data 5 with 8 bits skips the parity
check and emits. -/
theorem C3_finalize_parity_witness :
    (ACS.finalize_read 7 ⟨1, 26⟩).1 = some (7, 1, 26) ∧
    (ACS.finalize_read 7 ⟨5, 26⟩).1 = none ∧
    (ACS.finalize_read 7 ⟨5, 8⟩).1 = some (7, 5, 8) := by
  refine ⟨((C3_finalize_parity 7 ⟨1, 26⟩).1 rfl).mpr (by decide),
    (C3_finalize_parity 7 ⟨5, 26⟩).2.1 rfl (by decide),
    (C3_finalize_parity 7 ⟨5, 8⟩).2.2 (by decide) (by decide)⟩

/-- **C5.** The outbound queue is bounded: `prepare_message` drops the new
frame (printing the overflow warning) exactly when the queue already holds
more than 20 frames, so the queue holds at most 21 frames — its effective
capacity — and an enqueue at capacity leaves the stored frames and their
order unchanged; below capacity the new frame (payload plus checksum byte)
is appended at the back; the `IRQ_TX_DONE` branch of `i2c_irq_handler`
always pops and transmits the front frame, so frames leave in insertion
order. -/
theorem C5_queue_bounded_fifo (q : List (List Nat)) (p : List Nat) :
    (q.length ≤ 21 → (ACS.prepare_message q p).1.length ≤ 21) ∧
    (q.length > 20 → ACS.prepare_message q p = (q, true)) ∧
    (q.length ≤ 20 →
      ACS.prepare_message q p = (q ++ [p ++ [ACS.calculate_checksum p]], false)) ∧
    (∀ m rest rx, q = m :: rest →
      ACS.i2c_irq_handler .tx_done rx q = (none, m, rest)) := by
  refine ⟨?_, ?_, ?_, ?_⟩
  · intro hq
    by_cases h : q.length > 20
    · simpa [ACS.prepare_message, h] using hq
    · simp only [ACS.prepare_message, if_neg h]
      simp only [List.length_append, List.length_cons, List.length_nil]
      omega
  · intro h
    simp [ACS.prepare_message, h]
  · intro h
    have h' : ¬ q.length > 20 := by omega
    simp [ACS.prepare_message, h']
  · rintro m rest rx rfl
    rfl

/-- Witness for C5: a queue of 21 frames is at capacity and an enqueue is
dropped with a warning; a queue of one frame accepts a heartbeat payload at
the back; transmission pops the front. -/
theorem C5_queue_bounded_fifo_witness :
    (ACS.prepare_message (List.replicate 21 [0x82, 0x00, 0x82]) [0x82, 0x00]).1.length ≤ 21 ∧
    ACS.prepare_message (List.replicate 21 [0x82, 0x00, 0x82]) [0x82, 0x00] =
      (List.replicate 21 [0x82, 0x00, 0x82], true) ∧
    ACS.prepare_message [[0x83, 1, 5, 0x87]] [0x82, 0x00] =
      ([[0x83, 1, 5, 0x87], [0x82, 0x00, 0x82]], false) ∧
    ACS.i2c_irq_handler .tx_done [] [[0x83, 1, 5, 0x87], [0x82, 0x00, 0x82]] =
      (none, [0x83, 1, 5, 0x87], [[0x82, 0x00, 0x82]]) := by
  refine ⟨(C5_queue_bounded_fifo (List.replicate 21 [0x82, 0x00, 0x82]) [0x82, 0x00]).1
      (by decide),
    (C5_queue_bounded_fifo (List.replicate 21 [0x82, 0x00, 0x82]) [0x82, 0x00]).2.1
      (by decide),
    ?_,
    (C5_queue_bounded_fifo [[0x83, 1, 5, 0x87], [0x82, 0x00, 0x82]] [0x82, 0x00]).2.2.2
      _ _ [] rfl⟩
  have h := (C5_queue_bounded_fifo [[0x83, 1, 5, 0x87]] [0x82, 0x00]).2.2.1 (by decide)
  simpa [ACS.calculate_checksum] using h

/-- **C6, counterexample.** The claim says a failed poll moves a node to
Offline only when it was previously Online, and that an Unknown node stays
Unknown.  In the code, the `except OSError` branch of `polling_task` sets
the status to `"offline"` whenever it is not already `"offline"`: a node
whose status is `"unknown"` becomes `"offline"` after one failed poll. -/
theorem C6_unknown_becomes_offline_counterexample :
    (ACS.poll_node ⟨.unknown, 0⟩ .oserror 100 5).1.status = .offline ∧
    (ACS.poll_node ⟨.unknown, 0⟩ .oserror 100 5).1.status ≠ .unknown := by
  exact ⟨rfl, by decide⟩

/-- **C6, amended.** A poll that raises `OSError` transitions the node to
Offline (printing the warning) whenever its previous status was not already
Offline — Unknown nodes included — and is a no-op on an already-Offline
node; and the status moves only along the edges Unknown → Online,
Unknown → Offline, Online → Offline and Offline → Online: any status change
is either to Offline caused by an `OSError`, or to Online caused by a
response that `parse_slave_response` accepts. -/
theorem C6_amended_failed_poll (st : ACS.NodeState) (now : Int) (addr : Nat) :
    (st.status ≠ .offline →
      ACS.poll_node st .oserror now addr = ({ st with status := .offline }, false, true)) ∧
    (st.status = .offline → ACS.poll_node st .oserror now addr = (st, false, false)) ∧
    (∀ o, (ACS.poll_node st o now addr).1.status ≠ st.status →
      ((ACS.poll_node st o now addr).1.status = .offline ∧ o = .oserror) ∨
      ((ACS.poll_node st o now addr).1.status = .online ∧
        ∃ d, o = .response d ∧ (ACS.parse_slave_response d addr).isSome = true)) := by
  refine ⟨?_, ?_, ?_⟩
  · intro h
    simp [ACS.poll_node, h]
  · intro h
    simp [ACS.poll_node, h]
  · intro o hchange
    match o with
    | .oserror =>
      by_cases h : st.status = ACS.NodeStatus.offline
      · simp [ACS.poll_node, h] at hchange
      · left
        simp [ACS.poll_node, h]
    | .response d =>
      cases hp : ACS.parse_slave_response d addr with
      | none => simp [ACS.poll_node, hp] at hchange
      | some m =>
        right
        constructor
        · simp [ACS.poll_node, hp]
        · exact ⟨d, rfl, by simp [hp]⟩

/-- Witness for C6 (amended): an Unknown node becomes Offline with a warning
after one failed poll; an Offline node is untouched by a failed poll; an
Offline node polled with the filler byte `0x00` changes status, and the
change is the Offline → Online edge caused by an accepted response. -/
theorem C6_amended_failed_poll_witness :
    ACS.poll_node ⟨.unknown, 0⟩ .oserror 100 5 = (⟨.offline, 0⟩, false, true) ∧
    ACS.poll_node ⟨.offline, 7⟩ .oserror 100 5 = (⟨.offline, 7⟩, false, false) ∧
    (((ACS.poll_node ⟨.offline, 7⟩ (.response [0x00]) 100 5).1.status = .offline ∧
        (ACS.PollOutcome.response [0x00]) = .oserror) ∨
      ((ACS.poll_node ⟨.offline, 7⟩ (.response [0x00]) 100 5).1.status = .online ∧
        ∃ d, (ACS.PollOutcome.response [0x00]) = .response d ∧
          (ACS.parse_slave_response d 5).isSome = true)) := by
  exact ⟨(C6_amended_failed_poll ⟨.unknown, 0⟩ 100 5).1 (by decide),
    (C6_amended_failed_poll ⟨.offline, 7⟩ 100 5).2.1 rfl,
    (C6_amended_failed_poll ⟨.offline, 7⟩ 100 5).2.2 (.response [0x00]) (by decide)⟩

/-- **C7, counterexample.** The claim says the valid-but-empty `0x00`
response updates `last_seen` without changing the status.  In the code,
`parse_slave_response(b'\x00')` returns the truthy dict `{"type": "empty"}`,
so the polling loop's `if state["status"] != "online"` branch runs and a
previously Unknown node becomes Online. -/
theorem C7_empty_response_changes_status_counterexample :
    ACS.parse_slave_response [0x00] 5 = some .empty ∧
    (ACS.poll_node ⟨.unknown, 0⟩ (.response [0x00]) 100 5).1.status = .online ∧
    (ACS.poll_node ⟨.unknown, 0⟩ (.response [0x00]) 100 5).1.status ≠ .unknown := by
  exact ⟨rfl, rfl, by decide⟩

/-- **C7, amended.** A poll answered by the single reserved filler byte
`0x00` parses to the `{"type": "empty"}` message, updates the node's
`last_seen` to the poll time, and additionally sets the status to Online
(printing the "now ONLINE" notice when the node was not Online before). -/
theorem C7_amended_empty_response (st : ACS.NodeState) (now : Int) (addr : Nat) :
    ACS.parse_slave_response [0x00] addr = some .empty ∧
    ACS.poll_node st (.response [0x00]) now addr =
      ({ status := .online, last_seen := now }, decide (st.status ≠ .online), false) := by
  exact ⟨rfl, rfl⟩

/-- **C8.** Independently of poll outcomes, the timeout sweep transitions
every Online node whose `last_seen` age exceeds 45000 ms to Offline with a
warning; the sweep never makes a node Online; and a poll makes a node Online
only if it already was Online or the poll's response was accepted by
`parse_slave_response`. -/
theorem C8_stale_online_nodes_go_offline (st : ACS.NodeState) (now : Int) (addr : Nat) :
    (st.status = .online → now - st.last_seen > 45000 →
      ACS.timeout_check st now = ({ st with status := .offline }, true)) ∧
    ((ACS.timeout_check st now).1.status = .online → st.status = .online) ∧
    (∀ o, (ACS.poll_node st o now addr).1.status = .online →
      st.status = .online ∨
        ∃ d, o = .response d ∧ (ACS.parse_slave_response d addr).isSome = true) := by
  refine ⟨?_, ?_, ?_⟩
  · intro h1 h2
    simp [ACS.timeout_check, h1, h2]
  · intro h
    by_cases hc : st.status = ACS.NodeStatus.online ∧ now - st.last_seen > 45000
    · simp [ACS.timeout_check, hc] at h
    · simpa [ACS.timeout_check, hc] using h
  · intro o honline
    match o with
    | .oserror =>
      by_cases h : st.status = ACS.NodeStatus.offline
      · simp [ACS.poll_node, h] at honline
      · simp [ACS.poll_node, h] at honline
    | .response d =>
      simp only [ACS.poll_node] at honline
      cases hp : ACS.parse_slave_response d addr with
      | none =>
        left
        simpa [hp] using honline
      | some m => exact Or.inr ⟨d, rfl, by simp [hp]⟩

/-- Witness for C8: an Online node last seen at time 0 is swept Offline at
time 50000; a node the sweep leaves Online was Online before; an Offline
node that turns Online after a poll did so via an accepted response (the
heartbeat frame `82 00 82`). -/
theorem C8_stale_online_nodes_go_offline_witness :
    ACS.timeout_check ⟨.online, 0⟩ 50000 = (⟨.offline, 0⟩, true) ∧
    (⟨.online, 10⟩ : ACS.NodeState).status = .online ∧
    ((⟨.offline, 0⟩ : ACS.NodeState).status = .online ∨
      ∃ d, (ACS.PollOutcome.response [0x82, 0x00, 0x82]) = .response d ∧
        (ACS.parse_slave_response d 5).isSome = true) := by
  exact ⟨(C8_stale_online_nodes_go_offline ⟨.online, 0⟩ 50000 5).1 rfl (by decide),
    (C8_stale_online_nodes_go_offline ⟨.online, 10⟩ 20 5).2.1 (by decide),
    (C8_stale_online_nodes_go_offline ⟨.offline, 0⟩ 100 5).2.2
      (.response [0x82, 0x00, 0x82]) (by decide)⟩

/-- Helper: `parse_slave_response` rejects any input other than the filler
byte whose trailing byte differs from the XOR of the bytes before it. -/
theorem parse_slave_response_checksum_reject (data : List Nat) (addr : Nat)
    (h0 : data ≠ [0x00])
    (hcs : data.getLastD 0 ≠ ACS.calculate_checksum data.dropLast) :
    ACS.parse_slave_response data addr = none := by
  simp only [ACS.parse_slave_response, if_neg h0]
  by_cases hl : data.length < 3
  · rw [if_pos hl]
  · rw [if_neg hl, if_pos hcs]

/-- Helper: `parse_slave_response` rejects any non-filler input whose length
byte does not match the number of field bytes. -/
theorem parse_slave_response_len_reject (data : List Nat) (addr : Nat)
    (h0 : data ≠ [0x00]) (t len : Nat) (rest : List Nat)
    (hp : data.dropLast = t :: len :: rest) (hlen : rest.length ≠ len) :
    ACS.parse_slave_response data addr = none := by
  simp only [ACS.parse_slave_response, if_neg h0]
  by_cases hl : data.length < 3
  · rw [if_pos hl]
  · rw [if_neg hl]
    by_cases hcs : data.getLastD 0 ≠ ACS.calculate_checksum data.dropLast
    · rw [if_pos hcs]
    · rw [if_neg hcs, hp]
      simp [hlen]

/-- **C9, counterexample.** The claim says every command byte string handed
to `handle_i2c_command` has passed checksum validation.  The `IRQ_RX_DONE`
branch of `i2c_irq_handler` schedules the raw received bytes for dispatch
with no validation: the two-byte feedback command `10 01` that the master
actually sends (`i2c.writeto(address, bytes([command, rdr_id]))`, no
checksum trailer — its last byte is not the XOR of the preceding one) is
dispatched and acted on. -/
theorem C9_unvalidated_dispatch_counterexample :
    (ACS.i2c_irq_handler .rx_done [0x10, 0x01] []).1 = some [0x10, 0x01] ∧
    ACS.calculate_checksum [0x10] ≠ 0x01 ∧
    (ACS.handle_i2c_command [] [] [0x10, 0x01]).1 = .feedback true 1 := by
  refine ⟨rfl, by decide, rfl⟩

/-- **C9, amended.** On the master, `parse_slave_response` returns a message
other than the reserved `{"type": "empty"}` filler only when the recomputed
XOR checksum of the payload equals the trailing checksum byte, so only
checksum-validated frames are routed.  On a node, however, the bytes
received on the bus are handed to `handle_i2c_command` exactly as read:
master-to-node commands carry no checksum trailer and undergo no checksum
validation before dispatch. -/
theorem C9_amended_checksum_gate (data : List Nat) (addr : Nat) (m : ACS.SlaveMsg) :
    (ACS.parse_slave_response data addr = some m → m ≠ .empty →
      data.getLastD 0 = ACS.calculate_checksum data.dropLast) ∧
    (∀ rx q, (ACS.i2c_irq_handler .rx_done rx q).1 = some rx) := by
  constructor
  · intro hm hne
    by_cases h0 : data = [0x00]
    · rw [h0] at hm
      have : m = ACS.SlaveMsg.empty := by
        have := hm.symm.trans rfl
        simpa [ACS.parse_slave_response] using hm.symm
      exact absurd this hne
    · by_contra hcs
      rw [parse_slave_response_checksum_reject data addr h0 hcs] at hm
      cases hm
  · intro rx q
    rfl

/-- Witness for C9 (amended): the heartbeat frame `82 00 82` parses to a
non-empty message, and indeed its trailing byte equals the XOR of its
payload; and the raw command bytes `10 01` are dispatched unvalidated. -/
theorem C9_amended_checksum_gate_witness :
    [0x82, 0x00, 0x82].getLastD 0 = ACS.calculate_checksum [0x82, 0x00, 0x82].dropLast ∧
    (ACS.i2c_irq_handler .rx_done [0x10, 0x01] []).1 = some [0x10, 0x01] := by
  exact ⟨(C9_amended_checksum_gate [0x82, 0x00, 0x82] 5 (.heartbeat 5)).1 rfl (by decide),
    (C9_amended_checksum_gate [] 0 .empty).2 [0x10, 0x01] []⟩

/-- Helper: an enqueue either leaves the queue unchanged (overflow) or
appends the payload-plus-checksum frame at the back. -/
theorem prepare_message_cases (q : List (List Nat)) (p : List Nat) :
    (ACS.prepare_message q p).1 = q ∨
      (ACS.prepare_message q p).1 = q ++ [p ++ [ACS.calculate_checksum p]] := by
  unfold ACS.prepare_message
  split
  · exact Or.inl rfl
  · exact Or.inr rfl

/-- **C10.** While a node's address equals the reserved unconfigured address
`0x08`, the Wiegand callback returns at once, a pass of the input monitor
enqueues nothing and leaves the remembered pin states unchanged, and a pass
of the heartbeat task enqueues nothing; and `handle_i2c_command` — the only
other producer — only ever appends frames whose first byte is
`RESP_IDENTIFY` (0x41) or `ACK_SET_ADDRESS` (0x42), so only
IdentifyResponse and AddressAck frames can enter the outbound queue before
an address is assigned. -/
theorem C10_unconfigured_node_is_silent (q : List (List Nat))
    (doors : List ACS.DoorPins) (states : ACS.InputStates)
    (tuple : Nat × Nat × Nat) (uid data : List Nat) :
    ACS.wiegand_callback ACS.UNCONFIGURED_I2C_ADDRESS q tuple = .ok q ∧
    ACS.monitor_inputs_iter ACS.UNCONFIGURED_I2C_ADDRESS doors states q = (q, states) ∧
    ACS.heartbeat_iter ACS.UNCONFIGURED_I2C_ADDRESS q = q ∧
    ((ACS.handle_i2c_command uid q data).2 = q ∨
      ∃ p, (ACS.handle_i2c_command uid q data).2 = q ++ [p] ∧
        (p.headD 0 = ACS.RESP_IDENTIFY ∨ p.headD 0 = ACS.ACK_SET_ADDRESS)) := by
  refine ⟨rfl, by simp [ACS.monitor_inputs_iter], by simp [ACS.heartbeat_iter], ?_⟩
  match data with
  | [] => exact Or.inl rfl
  | cmd :: rest =>
    simp only [ACS.handle_i2c_command]
    by_cases h1 : cmd = ACS.CMD_IDENTIFY
    · rw [if_pos h1]
      rcases prepare_message_cases q (ACS.RESP_IDENTIFY :: uid.length :: uid) with h | h
      · exact Or.inl h
      · exact Or.inr ⟨_, h, Or.inl rfl⟩
    · rw [if_neg h1]
      by_cases h2 : cmd = ACS.CMD_SET_ADDRESS ∧ rest ≠ []
      · rw [if_pos h2]
        rcases prepare_message_cases q
            [ACS.ACK_SET_ADDRESS, 2, ACS.STATUS_OK, rest.headD 0] with h | h
        · exact Or.inl h
        · exact Or.inr ⟨_, h, Or.inr rfl⟩
      · rw [if_neg h2]
        by_cases h3 : (cmd = ACS.CMD_FEEDBACK_GRANT ∨ cmd = ACS.CMD_FEEDBACK_DENY) ∧ rest ≠ []
        · rw [if_pos h3]
          exact Or.inl rfl
        · rw [if_neg h3]
          exact Or.inl rfl

/-- Helper: `dropWhile` is the identity when the first element (if any)
fails the predicate. -/
theorem dropWhile_eq_self_of_head {p : Char → Bool} (s : List Char)
    (h : ∀ c, s.head? = some c → p c = false) :
    s.dropWhile p = s := by
  cases s with
  | nil => rfl
  | cons a l => simp [List.dropWhile_cons, h a rfl]

/-- Helper: `takeWhile` / `dropWhile` split around the first failing element
when everything before it passes. -/
theorem takeWhile_dropWhile_append {p : Char → Bool} (l : List Char) (x : Char)
    (m : List Char) (hl : ∀ c ∈ l, p c = true) (hx : p x = false) :
    (l ++ x :: m).takeWhile p = l ∧ (l ++ x :: m).dropWhile p = x :: m := by
  induction l with
  | nil => simp [List.takeWhile_cons, List.dropWhile_cons, hx]
  | cons a l ih =>
    have ha : p a = true := hl a (by simp)
    obtain ⟨h1, h2⟩ := ih (fun c hc => hl c (by simp [hc]))
    simp [List.takeWhile_cons, List.dropWhile_cons, ha, h1, h2]

/-- Helper: `dropWhile` is the identity on `l ++ m` when every element of
`l` fails the predicate and `dropWhile` already fixes `m`. -/
theorem dropWhile_append_eq_self {p : Char → Bool} (l m : List Char)
    (hl : ∀ c ∈ l, p c = false) (hm : List.dropWhile p m = m) :
    List.dropWhile p (l ++ m) = l ++ m := by
  cases l with
  | nil => simpa using hm
  | cons a t =>
    have ha : p a = false := hl a (by simp)
    simp [List.dropWhile_cons, ha]

/-- Helper: how `parse_message_frame` evaluates on a line of the shape
`'<' q '|' r` where the received-checksum part `r` contains no `'|'` and no
whitespace: the envelope is split at the last `'|'`, the `'>'` terminator of
the payload part is required, and the checksum strings are compared
case-insensitively. -/
theorem parse_message_frame_split (q r : List Char)
    (hr1 : ∀ c ∈ r, c ≠ '|') (hr2 : ∀ c ∈ r, ACS.isPySpace c = false) :
    ACS.parse_message_frame (( '<' :: q) ++ '|' :: r) =
      if ( '<' :: q).getLast? = some '>' then
        (if (ACS.format02X (ACS.str_checksum q.dropLast)).map Char.toLower
            = r.map Char.toLower then some q.dropLast else none)
      else none := by
  have hrev : (( '<' :: q) ++ '|' :: r).reverse
      = r.reverse ++ '|' :: (q.reverse ++ [ '<' ]) := by
    simp
  have h1 : List.dropWhile ACS.isPySpace (( '<' :: q) ++ '|' :: r)
      = ( '<' :: q) ++ '|' :: r := by
    simp [List.dropWhile_cons, show ACS.isPySpace '<' = false from rfl]
  have h2 : List.dropWhile ACS.isPySpace (r.reverse ++ '|' :: (q.reverse ++ [ '<' ]))
      = r.reverse ++ '|' :: (q.reverse ++ [ '<' ]) := by
    apply dropWhile_append_eq_self
    · intro c hc
      exact hr2 c (List.mem_reverse.mp hc)
    · simp [List.dropWhile_cons, show ACS.isPySpace '|' = false from rfl]
  have hstrip : ACS.pyStrip (( '<' :: q) ++ '|' :: r) = ( '<' :: q) ++ '|' :: r := by
    unfold ACS.pyStrip
    rw [h1, hrev, h2, ← hrev, List.reverse_reverse]
  have hsplit : ACS.rsplit_bar (( '<' :: q) ++ '|' :: r) = ( '<' :: q, r) := by
    obtain ⟨ht, hd⟩ := takeWhile_dropWhile_append (p := fun c => c != '|')
      r.reverse '|' (q.reverse ++ [ '<' ])
      (fun c hc => by simpa using hr1 c (List.mem_reverse.mp hc))
      (by decide)
    simp only [ACS.rsplit_bar, hrev, ht, hd]
    simp
  have hcont : (( '<' :: q) ++ '|' :: r).contains '|' = true := by
    simp [List.contains, List.elem_iff]
  simp only [ACS.parse_message_frame, hstrip, hsplit]
  rw [if_neg (by simp [hcont])]
  by_cases hgt : ( '<' :: q).getLast? = some '>'
  · by_cases hcs : (ACS.format02X (ACS.str_checksum q.dropLast)).map Char.toLower
        = r.map Char.toLower
    · simp [hgt, hcs]
    · simp [hgt, hcs]
  · simp [hgt]

/-- **C4.** Decoding is total (the embedded decoders are total functions
into `Option`) and all-or-nothing.  Binary (`parse_slave_response`): any
non-filler input whose trailing byte differs from the recomputed XOR
checksum of the preceding bytes is rejected with "no message", and so is
any non-filler input whose length byte does not match the number of field
bytes.  Text (`parse_message`): a line not starting with `'<'` after
stripping is rejected, a line without `'|'` is rejected, a frame whose
payload part does not end with `'>'` is rejected, and a frame whose
two-hex-digit checksum field differs (case-insensitively) from the checksum
recomputed over the payload is rejected. -/
theorem C4_decoders_reject_corruption (data : List Nat) (addr : Nat)
    (t len : Nat) (rest : List Nat) (raw p r : List Char) :
    (data ≠ [0x00] → data.getLastD 0 ≠ ACS.calculate_checksum data.dropLast →
      ACS.parse_slave_response data addr = none) ∧
    (data ≠ [0x00] → data.dropLast = t :: len :: rest → rest.length ≠ len →
      ACS.parse_slave_response data addr = none) ∧
    ((ACS.pyStrip raw).head? ≠ some '<' → ACS.parse_message_frame raw = none) ∧
    (¬ (ACS.pyStrip raw).contains '|' → ACS.parse_message_frame raw = none) ∧
    ((∀ c ∈ r, c ≠ '|') → (∀ c ∈ r, ACS.isPySpace c = false) →
      ( '<' :: p).getLast? ≠ some '>' →
      ACS.parse_message_frame (( '<' :: p) ++ '|' :: r) = none) ∧
    ((∀ c ∈ r, c ≠ '|') → (∀ c ∈ r, ACS.isPySpace c = false) →
      (ACS.format02X (ACS.str_checksum p)).map Char.toLower ≠ r.map Char.toLower →
      ACS.parse_message_frame (( '<' :: (p ++ [ '>' ])) ++ '|' :: r) = none) := by
  refine ⟨fun h0 hcs => parse_slave_response_checksum_reject data addr h0 hcs,
    fun h0 hp hlen => parse_slave_response_len_reject data addr h0 t len rest hp hlen,
    ?_, ?_, ?_, ?_⟩
  · intro h
    simp only [ACS.parse_message_frame]
    rw [if_pos (Or.inl h)]
  · intro h
    simp only [ACS.parse_message_frame]
    rw [if_pos (Or.inr h)]
  · intro hr1 hr2 hgt
    rw [parse_message_frame_split p r hr1 hr2, if_neg hgt]
  · intro hr1 hr2 hcs
    rw [parse_message_frame_split (p ++ [ '>' ]) r hr1 hr2]
    have hgt : ( '<' :: (p ++ [ '>' ])).getLast? = some '>' := by
      rw [show ( '<' :: (p ++ [ '>' ])) = ( '<' :: p) ++ [ '>' ] from rfl,
        List.getLast?_concat]
    rw [if_pos hgt, List.dropLast_concat, if_neg hcs]

/-- Witness for C4: the heartbeat frame with flipped checksum byte
`82 00 FF` is rejected; `82 05 87` (valid checksum, length byte 5 but zero
field bytes) is rejected; the line `x` (no `'<'`) is rejected; `<a>` (no
`'|'`) is rejected; `<a|00` (no `'>'`) is rejected; `<hi>|00` (checksum of
`hi` is `01`, field altered to `00`) is rejected. -/
theorem C4_decoders_reject_corruption_witness :
    ACS.parse_slave_response [0x82, 0x00, 0xFF] 1 = none ∧
    ACS.parse_slave_response [0x82, 0x05, 0x87] 1 = none ∧
    ACS.parse_message_frame [ 'x' ] = none ∧
    ACS.parse_message_frame [ '<', 'a', '>' ] = none ∧
    ACS.parse_message_frame [ '<', 'a', '|', '0', '0' ] = none ∧
    ACS.parse_message_frame [ '<', 'h', 'i', '>', '|', '0', '0' ] = none := by
  refine ⟨(C4_decoders_reject_corruption [0x82, 0x00, 0xFF] 1 0 0 [] [] [] []).1
      (by decide) (by decide),
    (C4_decoders_reject_corruption [0x82, 0x05, 0x87] 1 0x82 5 [] [] [] []).2.1
      (by decide) (by decide) (by decide),
    (C4_decoders_reject_corruption [] 0 0 0 [] [ 'x' ] [] []).2.2.1 (by decide),
    (C4_decoders_reject_corruption [] 0 0 0 [] [ '<', 'a', '>' ] [] []).2.2.2.1
      (by decide),
    (C4_decoders_reject_corruption [] 0 0 0 [] [] [ 'a' ] [ '0', '0' ]).2.2.2.2.1
      (by decide) (by decide) (by decide),
    (C4_decoders_reject_corruption [] 0 0 0 [] [] [ 'h', 'i' ] [ '0', '0' ]).2.2.2.2.2
      (by decide) (by decide) (by decide)⟩
